import Mathlib

/-!
Verification of the Ibom Transit server fare, ledger, availability and
cancellation logic.  The definitions below are a shallow embedding of the
JavaScript source: Mongoose documents become structures, instance methods
become functions on those structures, JavaScript numbers become rationals,
and Date values become rational millisecond timestamps.  Fallible methods
return Except values carrying the thrown message.
-/

namespace IbomTransit

/-- JavaScript Math.round: rounds half toward positive infinity. -/
def jsRound (q : ℚ) : ℤ := ⌊q + 1/2⌋

/-- The pervasive source idiom Math.round(x * 100) / 100. -/
def round2 (q : ℚ) : ℚ := (jsRound (q * 100) : ℚ) / 100

/-- Status of a single ledger entry (payments[].status / refunds[].status). -/
inductive EntryStatus
  | pending
  | completed
  | failed
  | refunded
deriving DecidableEq

/-- Derived payment status of a reservation (paymentStatus field). -/
inductive PayStatus
  | pending
  | partiallyPaid
  | paid
  | refunded
  | partiallyRefunded
deriving DecidableEq

/-- Booking lifecycle status. -/
inductive BookStatus
  | pending
  | confirmed
  | cancelled
  | completed
  | noShow
  | refunded
deriving DecidableEq

/-- Hiring lifecycle status. -/
inductive HireStatus
  | pending
  | approved
  | confirmed
  | cancelled
  | rejected
  | inProgress
  | completed
  | refunded
deriving DecidableEq

/-- Trip type shared by bookings and hirings. -/
inductive TripType
  | oneWay
  | roundTrip
deriving DecidableEq

/-- One entry of a booking payments array.  Fields not read by the verified
methods (reference, gateway, date, processedBy) are omitted. -/
structure Payment where
  amount : ℚ
  transactionId : String
  status : EntryStatus
deriving DecidableEq

/-- One entry of a booking refunds array. -/
structure RefundEntry where
  amount : ℚ
  refundTransactionId : String
  status : EntryStatus
deriving DecidableEq

/-- The booking document fields read or written by the embedded methods. -/
structure Booking where
  status : BookStatus
  paymentStatus : PayStatus
  totalFare : ℚ
  payments : List Payment
  refunds : List RefundEntry
  /-- departureDate as a millisecond timestamp. -/
  departureDate : ℚ
deriving DecidableEq

/-- BookingSchema.methods.getTotalPaid: sum of Completed payment amounts. -/
def Booking.getTotalPaid (b : Booking) : ℚ :=
  ((b.payments.filter fun p => p.status = EntryStatus.completed).map
    fun p => p.amount).sum

/-- BookingSchema.methods.getTotalRefunded: sum of Completed refund amounts. -/
def Booking.getTotalRefunded (b : Booking) : ℚ :=
  ((b.refunds.filter fun r => r.status = EntryStatus.completed).map
    fun r => r.amount).sum

/-- BookingSchema.methods.updatePaymentStatus: derives paymentStatus from the
ledger by the if/else-if chain of the source, then auto-confirms a pending
booking that became fully paid.  When no branch of the chain fires the field
keeps its previous value, exactly as the source leaves it unassigned. -/
def Booking.updatePaymentStatus (b : Booking) : Booking :=
  let totalPaid := b.getTotalPaid
  let totalFare := b.totalFare
  let totalRefunded := b.getTotalRefunded
  let ps :=
    if totalPaid ≥ totalFare ∧ totalRefunded = 0 then PayStatus.paid
    else if totalPaid > 0 ∧ totalPaid < totalFare then PayStatus.partiallyPaid
    else if totalRefunded > 0 ∧ totalRefunded < totalPaid then PayStatus.partiallyRefunded
    else if totalRefunded ≥ totalPaid ∧ totalPaid > 0 then PayStatus.refunded
    else if totalPaid = 0 then PayStatus.pending
    else b.paymentStatus
  let st := if ps = PayStatus.paid ∧ b.status = BookStatus.pending
    then BookStatus.confirmed else b.status
  { b with paymentStatus := ps, status := st }

/-- BookingSchema.methods.addPayment: rejects a duplicate transactionId,
otherwise appends a Completed entry and recomputes the derived status.
The updatePaymentMetadata call only fills reporting fields that are not part
of this model. -/
def Booking.addPayment (b : Booking) (amount : ℚ) (transactionId : String) :
    Except String Booking :=
  if b.payments.any fun p => p.transactionId = transactionId then
    .error "Payment with this transaction ID already exists"
  else
    let payment : Payment := ⟨amount, transactionId, EntryStatus.completed⟩
    .ok (Booking.updatePaymentStatus { b with payments := b.payments ++ [payment] })

/-- BookingSchema.methods.addRefund: appends a Completed refund entry and
recomputes the derived status.  The generated refundTransactionId is taken
as a parameter. -/
def Booking.addRefund (b : Booking) (amount : ℚ) (refundTransactionId : String) :
    Booking :=
  let r : RefundEntry := ⟨amount, refundTransactionId, EntryStatus.completed⟩
  Booking.updatePaymentStatus { b with refunds := b.refunds ++ [r] }

/-- Refund outcome returned by the handleCancellation methods. -/
structure CancelRefund where
  refundAmount : ℚ
  refundPercentage : ℚ
deriving DecidableEq

/-- The refund tier table of BookingSchema.methods.handleCancellation, keyed
on hours to departure with strict greater-than at every boundary. -/
def bookingRefundPercentage (hoursToDeparture : ℚ) : ℚ :=
  if hoursToDeparture > 72 then 1
  else if hoursToDeparture > 48 then 3/4
  else if hoursToDeparture > 24 then 1/2
  else if hoursToDeparture > 12 then 1/4
  else 0

/-- BookingSchema.methods.handleCancellation: picks the refund tier from the
time to departure, computes round(totalPaid * percentage) to 2 decimals, and
when that amount is positive appends a refund entry through addRefund.  When
no refund applies the method reports amount 0 and percentage 0.  The generated
refund transaction id is a parameter. -/
def Booking.handleCancellation (b : Booking) (now : ℚ) (rid : String) :
    Booking × CancelRefund :=
  let hoursToDeparture := (b.departureDate - now) / (1000 * 60 * 60)
  let refundPercentage := bookingRefundPercentage hoursToDeparture
  let totalPaid := b.getTotalPaid
  let refundAmount := round2 (totalPaid * refundPercentage)
  if refundAmount > 0 then
    (b.addRefund refundAmount rid, ⟨refundAmount, refundPercentage⟩)
  else
    (b, ⟨0, 0⟩)

/-- BookingSchema.methods.validatePaymentAmount. -/
def Booking.validatePaymentAmount (b : Booking) (amount : ℚ) :
    Except String Unit :=
  let totalPaid := b.getTotalPaid
  let remainingAmount := b.totalFare - totalPaid
  if amount ≤ 0 then .error "Payment amount must be greater than zero"
  else if amount > remainingAmount then .error "Payment amount exceeds remaining balance"
  else .ok ()

/-- BookingSchema.methods.calculateTotalFare.  The Route model file is not
among the sources, so the per-passenger route.calculateFare results are
abstracted into the list passengerFares; the options passed to it depend only
on the passenger and on the departure date, never on bookingType, so the list
is the same for a One-Way and a Round-Trip booking that agree on route,
passengers and departure.  discountApplied is
additionalInformation.discountApplied, a fraction applied as (1 - d); the
source guards the multiplication by its truthiness. -/
def Booking.calculateTotalFare (passengerFares : List ℚ)
    (bookingType : TripType) (discountApplied : ℚ) : ℚ :=
  let totalFare := passengerFares.sum
  let totalFare :=
    if bookingType = TripType.roundTrip then totalFare * 2 else totalFare
  let totalFare :=
    if discountApplied ≠ 0 then totalFare * (1 - discountApplied) else totalFare
  round2 totalFare

/-! ## Hiring model (src/models/Hiring.js) -/

/-- Bus status enum; only Active buses are offered. -/
inductive BusStatus
  | active
  | maintenance
  | repair
  | retired
deriving DecidableEq

/-- The Route fields read by the hiring cost calculator. -/
structure RouteDoc where
  baseFare : ℚ
deriving DecidableEq

/-- The Bus fields read by the availability and cost code. -/
structure BusDoc where
  capacity : ℕ
  status : BusStatus
deriving DecidableEq

/-- Hiring rate types. -/
inductive RateType
  | perDay
  | perHour
  | perKilometer
  | fixed
  | routeBased
deriving DecidableEq

/-- Named cancellation policies for hirings. -/
inductive Policy
  | standard
  | flexible
  | strict
deriving DecidableEq

/-- One entry of the hiring payments array.  Refunds are recorded here as
negative-amount entries with method Refund. -/
structure HPayment where
  amount : ℚ
  method : String
  transactionId : String
  status : EntryStatus
deriving DecidableEq

/-- JavaScript a || b on numbers: b when a is 0 (falsy), else a. -/
def jsOr (a b : ℚ) : ℚ := if a = 0 then b else a

/-- The hiring document fields read or written by the embedded methods.
hasRoute mirrors the truthiness test on this.route. -/
structure Hiring where
  status : HireStatus
  paymentStatus : PayStatus
  totalCost : ℚ
  deposit : ℚ
  payments : List HPayment
  startDate : ℚ
  endDate : ℚ
  tripType : TripType
  rateType : RateType
  baseRate : ℚ
  routePriceMultiplier : ℚ
  estimatedDistance : ℚ
  driverAllowance : ℚ
  overtimeRate : ℚ
  additionalCharges : List ℚ
  cancellationPolicy : Policy
  hasRoute : Bool
deriving DecidableEq

/-- The totalPaid virtual: net sum of Completed payment amounts (refund
entries carry negative amounts, so they subtract). -/
def Hiring.totalPaid (h : Hiring) : ℚ :=
  ((h.payments.filter fun p => p.status = EntryStatus.completed).map
    fun p => p.amount).sum

/-- The remainingBalance virtual: Math.max(0, totalCost - totalPaid). -/
def Hiring.remainingBalance (h : Hiring) : ℚ :=
  max 0 (h.totalCost - h.totalPaid)

/-- HiringSchema.methods.processPayment: validates amount > 0, appends a
Completed entry unconditionally (there is no duplicate-transaction check in
this method), recomputes paymentStatus from the net total, and confirms a
pending hiring once the deposit is covered. -/
def Hiring.processPayment (h : Hiring) (amount : ℚ)
    (method transactionId : String) : Except String Hiring :=
  if amount ≤ 0 then .error "Invalid payment amount"
  else
    let payment : HPayment := ⟨amount, method, transactionId, EntryStatus.completed⟩
    let h1 := { h with payments := h.payments ++ [payment] }
    let totalPaid := h1.totalPaid
    let ps :=
      if totalPaid ≥ h.totalCost then PayStatus.paid
      else if totalPaid > 0 then PayStatus.partiallyPaid
      else PayStatus.pending
    let st := if totalPaid ≥ h.deposit ∧ h.status = HireStatus.pending
      then HireStatus.confirmed else h.status
    .ok { h1 with paymentStatus := ps, status := st }

/-- The refund tier tables of HiringSchema.methods.handleCancellation, keyed
on days to the start date. -/
def hiringRefundPercentage (policy : Policy) (daysToDeparture : ℚ) : ℚ :=
  match policy with
  | Policy.standard =>
    if daysToDeparture > 14 then 9/10
    else if daysToDeparture > 7 then 3/4
    else if daysToDeparture > 3 then 1/2
    else if daysToDeparture > 1 then 1/4
    else 0
  | Policy.flexible =>
    if daysToDeparture > 7 then 1
    else if daysToDeparture > 3 then 4/5
    else if daysToDeparture > 1 then 1/2
    else 0
  | Policy.strict =>
    if daysToDeparture > 30 then 3/4
    else if daysToDeparture > 14 then 1/2
    else if daysToDeparture > 7 then 1/4
    else 0

/-- HiringSchema.methods.handleCancellation: computes the refund from the
policy tier and the net Completed total, and when positive records it as a
negative-amount payment entry with method Refund, marking the hiring
Refunded or Partially Refunded.  The generated transaction id is a
parameter. -/
def Hiring.handleCancellation (h : Hiring) (now : ℚ) (rid : String) :
    Hiring × CancelRefund :=
  let daysToDeparture := (h.startDate - now) / (1000 * 60 * 60 * 24)
  let refundPercentage := hiringRefundPercentage h.cancellationPolicy daysToDeparture
  let totalPaid := h.totalPaid
  let refundAmount := round2 (totalPaid * refundPercentage)
  if refundAmount > 0 then
    let entry : HPayment := ⟨-refundAmount, "Refund", rid, EntryStatus.completed⟩
    let h1 := { h with payments := h.payments ++ [entry] }
    let h2 := { h1 with paymentStatus :=
      if refundAmount ≥ totalPaid then PayStatus.refunded else PayStatus.partiallyRefunded }
    (h2, ⟨refundAmount, refundPercentage⟩)
  else
    (h, ⟨refundAmount, refundPercentage⟩)

/-- HiringSchema.methods.calculateTotalCost.  The Route and Bus documents
resolved by findById at calculation time are explicit Option parameters.
Returns the rounded total or the thrown message. -/
def Hiring.calculateTotalCost (h : Hiring) (route : Option RouteDoc)
    (bus : Option BusDoc) : Except String ℚ :=
  let durationInHours := (h.endDate - h.startDate) / (1000 * 60 * 60)
  let durationInDays := durationInHours / 24
  let baseE : Except String ℚ :=
    match h.rateType with
    | RateType.perDay => .ok (h.baseRate * (⌈durationInDays⌉ : ℚ))
    | RateType.perHour => .ok (h.baseRate * (⌈durationInHours⌉ : ℚ))
    | RateType.perKilometer => .ok (h.baseRate * h.estimatedDistance)
    | RateType.fixed => .ok h.baseRate
    | RateType.routeBased =>
      if h.hasRoute then
        match route, bus with
        | some r, some bs =>
          let baseFareAmount := jsOr h.baseRate r.baseFare
          .ok (baseFareAmount * (bs.capacity : ℚ) * jsOr h.routePriceMultiplier 1)
        | _, _ => .error "Route or Bus not found for route-based pricing"
      else .error "Route is required for route-based pricing"
  match baseE with
  | .error e => .error e
  | .ok base =>
    let c1 := if h.driverAllowance > 0 then base + h.driverAllowance else base
    let totalStandardHours := (⌈durationInDays⌉ : ℚ) * 8
    let c2 :=
      if durationInHours > totalStandardHours ∧ h.overtimeRate > 0 then
        c1 + (durationInHours - totalStandardHours) * h.overtimeRate
      else c1
    let c3 := c2 + h.additionalCharges.sum
    let c4 := if h.tripType = TripType.roundTrip then c3 * 2 else c3
    .ok (round2 c4)

/-! ## Availability checker (HiringSchema.methods.checkBusAvailability and
the hiring-conflict query of bookingController.createBooking) -/

/-- The booking fields read by the availability queries. -/
structure AvailBooking where
  bookingNumber : String
  status : BookStatus
  departureDate : ℚ
  returnDate : Option ℚ
deriving DecidableEq

/-- The hiring fields read by the availability queries. -/
structure AvailHiring where
  hiringNumber : String
  status : HireStatus
  startDate : ℚ
  endDate : ℚ
deriving DecidableEq

/-- The booking-conflict query of checkBusAvailability: the booking's
departureDate, or its returnDate when present, lies inside the requested
window, both bounds inclusive. -/
def bookingInWindow (s e : ℚ) (b : AvailBooking) : Bool :=
  (decide (s ≤ b.departureDate) && decide (b.departureDate ≤ e)) ||
    (match b.returnDate with
     | some r => decide (s ≤ r) && decide (r ≤ e)
     | none => false)

/-- The hiring-conflict query of checkBusAvailability: the hiring's startDate
or endDate lies inside the requested window, both bounds inclusive. -/
def hiringInWindow (s e : ℚ) (x : AvailHiring) : Bool :=
  (decide (s ≤ x.startDate) && decide (x.startDate ≤ e)) ||
    (decide (s ≤ x.endDate) && decide (x.endDate ≤ e))

/-- Booking states counted as conflicts by the availability queries. -/
def bookingActive (s : BookStatus) : Bool :=
  decide (s = BookStatus.confirmed ∨ s = BookStatus.pending)

/-- Hiring states counted as conflicts by the availability queries. -/
def hiringActive (s : HireStatus) : Bool :=
  decide (s = HireStatus.confirmed ∨ s = HireStatus.pending ∨
    s = HireStatus.inProgress)

/-- Result of checkBusAvailability. -/
inductive AvailResult
  | busNotFound
  | busInactive (s : BusStatus)
  | bookingConflicts (refs : List String)
  | hiringConflicts (refs : List String)
  | available (capacity : ℕ)
deriving DecidableEq

/-- HiringSchema.methods.checkBusAvailability.  The method reads only the
startDate and endDate of the requesting hiring and the persisted documents;
these are explicit parameters, and the exclusion of the current hiring by _id
is represented by the hirings list containing only the other hirings. -/
def checkBusAvailability (startDate endDate : ℚ) (bus : Option BusDoc)
    (bookings : List AvailBooking) (hirings : List AvailHiring) : AvailResult :=
  match bus with
  | none => AvailResult.busNotFound
  | some b =>
    if b.status ≠ BusStatus.active then AvailResult.busInactive b.status
    else
      let cb := bookings.filter fun bk =>
        bookingInWindow startDate endDate bk && bookingActive bk.status
      if cb ≠ [] then AvailResult.bookingConflicts (cb.map fun bk => bk.bookingNumber)
      else
        let ch := hirings.filter fun hx =>
          hiringInWindow startDate endDate hx && hiringActive hx.status
        if ch ≠ [] then AvailResult.hiringConflicts (ch.map fun hx => hx.hiringNumber)
        else AvailResult.available b.capacity

/-- The hiring-conflict query of bookingController.createBooking: an active
hiring conflicts when its inclusive window contains the departure instant or,
for a round trip, the return instant. -/
def createBookingHiringConflicts (departureDate : ℚ) (returnDate : Option ℚ)
    (hirings : List AvailHiring) : List String :=
  (hirings.filter fun hx =>
    ((decide (hx.startDate ≤ departureDate) && decide (hx.endDate ≥ departureDate)) ||
      (match returnDate with
       | some r => decide (hx.startDate ≤ r) && decide (hx.endDate ≥ r)
       | none => false)) &&
    hiringActive hx.status).map fun hx => hx.hiringNumber

/-! ## Seat checks of bookingController.createBooking -/

/-- The existing-booking fields read by the seat checks.  passengerSeats is
passengers[].seatNumber, returnSeats is selectedSeats.return. -/
structure ExBooking where
  bookingNumber : String
  status : BookStatus
  departureDate : ℚ
  returnDate : Option ℚ
  passengerSeats : List String
  returnSeats : List String
deriving DecidableEq

/-- The incoming createBooking request fields read by the seat checks. -/
structure BookingRequest where
  departureDate : ℚ
  returnDate : Option ℚ
  bookingType : TripType
  outboundSeats : List String
  returnSeats : List String
  passengerSeats : List String
deriving DecidableEq

/-- The $or date clause of the existing-bookings query: departureDate equals
the requested departure, or returnDate equals the requested return (the
return clause is only added when a return date was supplied). -/
def matchesDateQuery (req : BookingRequest) (b : ExBooking) : Bool :=
  decide (b.departureDate = req.departureDate) ||
    (match req.returnDate, b.returnDate with
     | some r, some br => decide (br = r)
     | _, _ => false)

/-- The in-memory test collecting bookedSeats.return: the booking has a
returnDate equal to the requested one. -/
def returnDateEq (req : BookingRequest) (b : ExBooking) : Bool :=
  match req.returnDate, b.returnDate with
  | some r, some br => decide (br = r)
  | _, _ => false

/-- The returnDate equality filter of the return-seat conflict query (a null
query value matches a missing returnDate). -/
def returnQueryMatches (req : BookingRequest) (b : ExBooking) : Bool :=
  match req.returnDate, b.returnDate with
  | some r, some br => decide (br = r)
  | none, none => true
  | _, _ => false

/-- Elements of a list occurring at a position after an equal element, the
way the source collects duplicate seat selections with indexOf. -/
def dupEntries (l : List String) : List String :=
  (l.enum.filter fun p => l.indexOf p.2 != p.1).map fun p => p.2

/-- Outcome of the seat-check pipeline of createBooking. -/
inductive CreateOutcome
  | notEnoughSeatsOutbound (refs : List String)
  | notEnoughSeatsReturn (refs : List String)
  | duplicateSeats (dups : List String)
  | seatMismatch
  | seatConflict (bookedSeats : List String) (refs : List String)
  | returnSeatConflict (bookedSeats : List String) (refs : List String)
  | ok
deriving DecidableEq

/-- The existing-bookings query of createBooking: same bus (implicit in the
list), Pending or Confirmed, departure equal to the requested departure or
return equal to the requested return. -/
def relevantBookings (existing : List ExBooking) (req : BookingRequest) :
    List ExBooking :=
  existing.filter fun b => bookingActive b.status && matchesDateQuery req b

/-- The occupied outbound seats collected in memory: passenger seat numbers
of the query results whose departureDate equals the requested departure,
deduplicated as a Set. -/
def bookedOutbound (existing : List ExBooking) (req : BookingRequest) :
    List String :=
  (((relevantBookings existing req).filter fun b =>
    decide (b.departureDate = req.departureDate)).flatMap fun b =>
      b.passengerSeats).dedup

/-- The occupied return seats collected in memory: selectedSeats.return of
the query results whose returnDate equals the requested return date. -/
def bookedReturn (existing : List ExBooking) (req : BookingRequest) :
    List String :=
  (((relevantBookings existing req).filter fun b =>
    returnDateEq req b).flatMap fun b => b.returnSeats).dedup

/-- The outbound seat-conflict query: active bookings matching the date $or
clause holding one of the requested outbound seats among their passenger
seat numbers. -/
def outboundConflicts (existing : List ExBooking) (req : BookingRequest) :
    List ExBooking :=
  existing.filter fun b =>
    bookingActive b.status && matchesDateQuery req b &&
      b.passengerSeats.any fun s => req.outboundSeats.contains s

/-- The return seat-conflict query: active bookings whose returnDate equals
the requested one holding a requested return seat among their passenger
(outbound) seat numbers — the source compares against passengers.seatNumber,
not against the return-seat sets of those bookings. -/
def returnSeatConflicts (existing : List ExBooking) (req : BookingRequest) :
    List ExBooking :=
  existing.filter fun b =>
    bookingActive b.status && returnQueryMatches req b &&
      b.passengerSeats.any fun s => req.returnSeats.contains s

/-- The seat-check pipeline of bookingController.createBooking, from the
existing-bookings query to the seat-conflict queries, in source order:
capacity for outbound and return, duplicates within the request, the
selected-seats versus passenger-seats match, then the outbound and return
seat-conflict queries.  existing holds the persisted bookings of the same
bus; capacity is busData.capacity. -/
def createBooking (capacity : ℕ) (existing : List ExBooking)
    (req : BookingRequest) : CreateOutcome :=
  if (bookedOutbound existing req).length + req.passengerSeats.length > capacity then
    CreateOutcome.notEnoughSeatsOutbound
      ((relevantBookings existing req).map fun b => b.bookingNumber)
  else if req.bookingType = TripType.roundTrip ∧
      (bookedReturn existing req).length + req.passengerSeats.length > capacity then
    CreateOutcome.notEnoughSeatsReturn
      ((relevantBookings existing req).map fun b => b.bookingNumber)
  else if req.outboundSeats.dedup.length ≠ req.outboundSeats.length ∨
      req.passengerSeats.dedup.length ≠ req.passengerSeats.length then
    CreateOutcome.duplicateSeats (dupEntries req.outboundSeats ++ dupEntries req.passengerSeats)
  else if req.outboundSeats.length ≠ req.passengerSeats.length ∨
      ¬ (req.outboundSeats.all fun s => req.passengerSeats.contains s) then
    CreateOutcome.seatMismatch
  else if req.outboundSeats.length > 0 then
    if outboundConflicts existing req ≠ [] then
      CreateOutcome.seatConflict
        ((((outboundConflicts existing req).flatMap fun b => b.passengerSeats).filter
          fun s => req.outboundSeats.contains s).dedup)
        ((outboundConflicts existing req).map fun b => b.bookingNumber)
    else if req.bookingType = TripType.roundTrip ∧ req.returnSeats.length > 0 then
      if returnSeatConflicts existing req ≠ [] then
        CreateOutcome.returnSeatConflict
          ((((returnSeatConflicts existing req).flatMap fun b => b.passengerSeats).filter
            fun s => req.returnSeats.contains s).dedup)
          ((returnSeatConflicts existing req).map fun b => b.bookingNumber)
      else CreateOutcome.ok
    else CreateOutcome.ok
  else CreateOutcome.ok

/-- The fare computation of bookingController.createBooking: base fare times
passenger count, doubled for a round trip, WELCOME10 promo applied after the
doubling, rounded to 2 decimals at the end.  baseFare is routeData.baseFare
with the source fallback to 0 already applied. -/
def createBookingFare (baseFare : ℚ) (passengerCount : ℕ)
    (bookingType : TripType) (promoCode : Option String) : ℚ :=
  let totalFare := baseFare * (passengerCount : ℚ)
  let totalFare :=
    if bookingType = TripType.roundTrip then totalFare * 2 else totalFare
  let totalFare :=
    match promoCode with
    | some code => if code = "WELCOME10" then totalFare * (9/10) else totalFare
    | none => totalFare
  round2 totalFare

/-! ## Status transitions and cancellation of bookingController -/

/-- Outcome of bookingController.cancelBooking. -/
inductive CancelOutcome
  | alreadyCancelled
  | cannotCancelCompleted
  | tooLate (hoursToDepature : ℚ)
  | cancelled (after : Booking) (refundAmount refundPercentage : ℚ)
deriving DecidableEq

/-- bookingController.cancelBooking: rejects a cancelled or completed
booking, rejects a non-admin request under 24 hours before departure, and
otherwise cancels, computing the refund from the raw sum of the payments
array only when paymentStatus is Paid or Partially Paid, with the admin
50 percent branch below the 24 hour tier.  The misspelt hoursToDepature
follows the source. -/
def cancelBooking (b : Booking) (now : ℚ) (isAdmin : Bool) : CancelOutcome :=
  if b.status = BookStatus.cancelled then CancelOutcome.alreadyCancelled
  else if b.status = BookStatus.completed then CancelOutcome.cannotCancelCompleted
  else
    let hoursToDepature := (b.departureDate - now) / (1000 * 60 * 60)
    if hoursToDepature < 24 ∧ isAdmin = false then CancelOutcome.tooLate hoursToDepature
    else
      let paidish := b.paymentStatus = PayStatus.paid ∨
        b.paymentStatus = PayStatus.partiallyPaid
      let refundPercentage : ℚ :=
        if paidish then
          if hoursToDepature > 72 then 1
          else if hoursToDepature > 48 then 3/4
          else if hoursToDepature > 24 then 1/2
          else if isAdmin then 1/2
          else 0
        else 0
      let totalPaid := (b.payments.map fun p => p.amount).sum
      let refundAmount : ℚ :=
        if paidish then round2 (totalPaid * refundPercentage) else 0
      CancelOutcome.cancelled { b with status := BookStatus.cancelled }
        refundAmount refundPercentage

/-- Outcome of bookingController.updateBookingStatus. -/
inductive UpdateOutcome
  | invalidStatus
  | cancelledLocked
  | completedLocked
  | updated (after : Booking)
deriving DecidableEq

/-- bookingController.updateBookingStatus: Refunded is not in the accepted
status list; a cancelled or completed booking rejects any different target
status; otherwise the status is updated. -/
def updateBookingStatus (b : Booking) (newStatus : BookStatus) : UpdateOutcome :=
  if newStatus = BookStatus.refunded then UpdateOutcome.invalidStatus
  else if b.status = BookStatus.cancelled ∧ newStatus ≠ BookStatus.cancelled then
    UpdateOutcome.cancelledLocked
  else if b.status = BookStatus.completed ∧ newStatus ≠ BookStatus.completed then
    UpdateOutcome.completedLocked
  else UpdateOutcome.updated { b with status := newStatus }

/-! ## Specification-side definitions used by the refinement statements -/

/-- The five-branch paymentStatus precedence exactly as the specification
words it, as ordered implications: a branch constrains the derived status
only when no earlier branch matched. -/
def followsPrecedence (b : Booking) : Prop :=
  (b.getTotalPaid ≥ b.totalFare ∧ b.getTotalRefunded = 0 →
    b.paymentStatus = PayStatus.paid) ∧
  (¬(b.getTotalPaid ≥ b.totalFare ∧ b.getTotalRefunded = 0) →
    0 < b.getTotalPaid ∧ b.getTotalPaid < b.totalFare →
    b.paymentStatus = PayStatus.partiallyPaid) ∧
  (¬(b.getTotalPaid ≥ b.totalFare ∧ b.getTotalRefunded = 0) →
    ¬(0 < b.getTotalPaid ∧ b.getTotalPaid < b.totalFare) →
    0 < b.getTotalRefunded ∧ b.getTotalRefunded < b.getTotalPaid →
    b.paymentStatus = PayStatus.partiallyRefunded) ∧
  (¬(b.getTotalPaid ≥ b.totalFare ∧ b.getTotalRefunded = 0) →
    ¬(0 < b.getTotalPaid ∧ b.getTotalPaid < b.totalFare) →
    ¬(0 < b.getTotalRefunded ∧ b.getTotalRefunded < b.getTotalPaid) →
    b.getTotalRefunded ≥ b.getTotalPaid ∧ b.getTotalPaid > 0 →
    b.paymentStatus = PayStatus.refunded) ∧
  (¬(b.getTotalPaid ≥ b.totalFare ∧ b.getTotalRefunded = 0) →
    ¬(0 < b.getTotalPaid ∧ b.getTotalPaid < b.totalFare) →
    ¬(0 < b.getTotalRefunded ∧ b.getTotalRefunded < b.getTotalPaid) →
    ¬(b.getTotalRefunded ≥ b.getTotalPaid ∧ b.getTotalPaid > 0) →
    b.getTotalPaid = 0 →
    b.paymentStatus = PayStatus.pending)

/-- Endpoint-containment conflict for a booking, the condition the
availability query actually implements: the booking is active and its
departure (or existing return) instant lies inside the requested inclusive
window. -/
def bookingEndpointIn (s e : ℚ) (bk : AvailBooking) : Prop :=
  (bk.status = BookStatus.confirmed ∨ bk.status = BookStatus.pending) ∧
  ((s ≤ bk.departureDate ∧ bk.departureDate ≤ e) ∨
    ∃ r', bk.returnDate = some r' ∧ s ≤ r' ∧ r' ≤ e)

/-- Endpoint-containment conflict for a hiring: the hiring is active and its
startDate or endDate lies inside the requested inclusive window. -/
def hiringEndpointIn (s e : ℚ) (hx : AvailHiring) : Prop :=
  (hx.status = HireStatus.confirmed ∨ hx.status = HireStatus.pending ∨
    hx.status = HireStatus.inProgress) ∧
  ((s ≤ hx.startDate ∧ hx.startDate ≤ e) ∨ (s ≤ hx.endDate ∧ hx.endDate ≤ e))

/-- Concrete hiring used to exercise cancellation: 100 paid, Flexible
policy, start 8 days (691200000 ms) after the epoch instant used as now. -/
def cancelHiring : Hiring :=
  ⟨HireStatus.confirmed, PayStatus.paid, 100, 0,
    [⟨100, "Cash", "T1", EntryStatus.completed⟩], 691200000, 777600000,
    TripType.oneWay, RateType.fixed, 100, 1, 1, 0, 0, [], Policy.flexible, false⟩

/-- The hiring above after a full cancellation refund of 100. -/
def cancelHiringAfter : Hiring :=
  { cancelHiring with
    payments := cancelHiring.payments ++
      [⟨-100, "Refund", "R1", EntryStatus.completed⟩],
    paymentStatus := PayStatus.refunded }

/-- Concrete Route-Based hiring with unset (0) baseRate, used to exercise
the fallback to the route base fare of 15000 over a 25-seat bus. -/
def routeBasedHiring : Hiring :=
  ⟨HireStatus.pending, PayStatus.pending, 0, 0, [], 0, 3600000,
    TripType.oneWay, RateType.routeBased, 0, 1, 10, 0, 0, [], Policy.standard, true⟩

/-- Concrete booking 10 hours (36000000 ms) before departure with 100 paid,
used to exercise the late-cancellation guard. -/
def lateBooking : Booking :=
  ⟨BookStatus.confirmed, PayStatus.paid, 100,
    [⟨100, "T1", EntryStatus.completed⟩], [], 36000000⟩

/-! ## Helper lemmas -/

theorem getTotalPaid_updatePaymentStatus (b : Booking) :
    (Booking.updatePaymentStatus b).getTotalPaid = b.getTotalPaid := rfl

theorem getTotalRefunded_updatePaymentStatus (b : Booking) :
    (Booking.updatePaymentStatus b).getTotalRefunded = b.getTotalRefunded := rfl

theorem totalFare_updatePaymentStatus (b : Booking) :
    (Booking.updatePaymentStatus b).totalFare = b.totalFare := rfl

theorem followsPrecedence_updatePaymentStatus (b : Booking) :
    followsPrecedence (Booking.updatePaymentStatus b) := by
  unfold followsPrecedence
  rw [getTotalPaid_updatePaymentStatus, getTotalRefunded_updatePaymentStatus,
    totalFare_updatePaymentStatus]
  unfold Booking.updatePaymentStatus
  refine ⟨?_, ?_, ?_, ?_, ?_⟩ <;> intros <;> simp only [] <;> split_ifs <;> rfl

/-! ## Claims -/

/-- C1: for every booking, after any ledger mutation (a successful addPayment
or any addRefund), the derived paymentStatus follows the five-branch
precedence of the specification evaluated in order with first match winning
(Paid, Partially Paid, Partially Refunded, Refunded, Pending), where
totalPaid sums the Completed payment amounts and totalRefunded sums the
Completed refund amounts of the resulting ledger. -/
theorem C1_paymentStatus_precedence :
    (∀ (b : Booking) (amount : ℚ) (tid : String) (b1 : Booking),
      b.addPayment amount tid = Except.ok b1 → followsPrecedence b1) ∧
    (∀ (b : Booking) (amount : ℚ) (rid : String),
      followsPrecedence (b.addRefund amount rid)) := by
  constructor
  · intro b amount tid b1 hok
    unfold Booking.addPayment at hok
    split at hok
    · exact absurd hok (by simp)
    · cases hok
      exact followsPrecedence_updatePaymentStatus _
  · intro b amount rid
    exact followsPrecedence_updatePaymentStatus _

/-- Witness for C1: a concrete half payment on a 100 fare yields a booking
whose derived status is Partially Paid and satisfies the precedence. -/
theorem C1_paymentStatus_precedence_witness :
    Booking.addPayment ⟨BookStatus.pending, PayStatus.pending, 100, [], [], 0⟩ 50 "T1" =
      Except.ok ⟨BookStatus.pending, PayStatus.partiallyPaid, 100,
        [⟨50, "T1", EntryStatus.completed⟩], [], 0⟩ ∧
    followsPrecedence ⟨BookStatus.pending, PayStatus.partiallyPaid, 100,
      [⟨50, "T1", EntryStatus.completed⟩], [], 0⟩ := by
  have h : Booking.addPayment ⟨BookStatus.pending, PayStatus.pending, 100, [], [], 0⟩ 50 "T1" =
      Except.ok ⟨BookStatus.pending, PayStatus.partiallyPaid, 100,
        [⟨50, "T1", EntryStatus.completed⟩], [], 0⟩ := by
    norm_num [Booking.addPayment, Booking.updatePaymentStatus,
      Booking.getTotalPaid, Booking.getTotalRefunded]
    decide
  exact ⟨h, C1_paymentStatus_precedence.1 _ _ _ _ h⟩

theorem round2_nonneg {q : ℚ} (hq : 0 ≤ q) : 0 ≤ round2 q := by
  unfold round2 jsRound
  have h1 : (0:ℚ) ≤ q * 100 + 1/2 := by linarith
  have h2 : (0:ℤ) ≤ ⌊q * 100 + 1/2⌋ := Int.floor_nonneg.mpr h1
  have h3 : (0:ℚ) ≤ (⌊q * 100 + 1/2⌋ : ℚ) := by exact_mod_cast h2
  positivity

theorem bookingRefundPercentage_nonneg (hrs : ℚ) :
    0 ≤ bookingRefundPercentage hrs := by
  unfold bookingRefundPercentage
  split_ifs <;> norm_num

/-- C3: the booking cancellation refund tiers are keyed on hours to
departure with strict greater-than at every boundary (100 percent above 72,
75 above 48, 50 above 24, 25 above 12, otherwise 0; cancelling exactly 72
hours before departure yields 75 percent), and handleCancellation computes
refundAmount as round(totalPaid times the tier percentage) to 2 decimals
and reports that tier percentage whenever the refund is positive. -/
theorem C3_cancellation_refund_tiers :
    (∀ hrs : ℚ,
      (hrs > 72 → bookingRefundPercentage hrs = 1) ∧
      (hrs ≤ 72 → hrs > 48 → bookingRefundPercentage hrs = 3/4) ∧
      (hrs ≤ 48 → hrs > 24 → bookingRefundPercentage hrs = 1/2) ∧
      (hrs ≤ 24 → hrs > 12 → bookingRefundPercentage hrs = 1/4) ∧
      (hrs ≤ 12 → bookingRefundPercentage hrs = 0)) ∧
    (∀ d : ℚ,
      bookingRefundPercentage ((d - (d - 72 * (1000 * 60 * 60))) / (1000 * 60 * 60)) = 3/4) ∧
    (∀ (b : Booking) (now : ℚ) (rid : String),
      0 ≤ b.getTotalPaid →
      (b.handleCancellation now rid).2.refundAmount =
        round2 (b.getTotalPaid *
          bookingRefundPercentage ((b.departureDate - now) / (1000 * 60 * 60)))) ∧
    (∀ (b : Booking) (now : ℚ) (rid : String),
      (b.handleCancellation now rid).2.refundAmount > 0 →
      (b.handleCancellation now rid).2.refundPercentage =
        bookingRefundPercentage ((b.departureDate - now) / (1000 * 60 * 60))) := by
  refine ⟨?_, ?_, ?_, ?_⟩
  · intro hrs
    refine ⟨?_, ?_, ?_, ?_, ?_⟩ <;> intros <;> unfold bookingRefundPercentage <;>
      split_ifs <;> first | rfl | linarith
  · intro d
    have he : (d - (d - 72 * (1000 * 60 * 60))) / (1000 * 60 * 60) = (72:ℚ) := by
      field_simp
    rw [he]
    norm_num [bookingRefundPercentage]
  · intro b now rid htp
    simp only [Booking.handleCancellation]
    split_ifs with hpos
    · rfl
    · have hge : 0 ≤ round2 (b.getTotalPaid *
          bookingRefundPercentage ((b.departureDate - now) / (1000 * 60 * 60))) :=
        round2_nonneg (mul_nonneg htp (bookingRefundPercentage_nonneg _))
      simp only [not_lt] at hpos
      have : round2 (b.getTotalPaid *
          bookingRefundPercentage ((b.departureDate - now) / (1000 * 60 * 60))) = 0 :=
        le_antisymm hpos hge
      simpa using this.symm
  · intro b now rid hpos
    simp only [Booking.handleCancellation] at hpos ⊢
    split_ifs at hpos ⊢ with h1
    · rfl
    · simp at hpos

/-- Witness for C3: a cancellation 100 hours ahead refunds in full, exactly
72 hours ahead refunds 75 percent, and a concrete booking with 100 paid and
departure 100 hours away refunds round2 of 100 times the tier. -/
theorem C3_cancellation_refund_tiers_witness :
    ((100:ℚ) > 72 ∧ bookingRefundPercentage 100 = 1) ∧
    bookingRefundPercentage ((0 - (0 - 72 * (1000 * 60 * 60))) / (1000 * 60 * 60)) = 3/4 ∧
    (Booking.handleCancellation
        ⟨BookStatus.confirmed, PayStatus.paid, 100,
          [⟨100, "T1", EntryStatus.completed⟩], [], 360000000⟩ 0 "R1").2.refundAmount =
      round2 ((Booking.getTotalPaid
        ⟨BookStatus.confirmed, PayStatus.paid, 100,
          [⟨100, "T1", EntryStatus.completed⟩], [], 360000000⟩) *
        bookingRefundPercentage ((360000000 - 0) / (1000 * 60 * 60))) := by
  refine ⟨⟨by norm_num, (C3_cancellation_refund_tiers.1 100).1 (by norm_num)⟩,
    C3_cancellation_refund_tiers.2.1 0, ?_⟩
  exact C3_cancellation_refund_tiers.2.2.1 _ 0 "R1" (by norm_num [Booking.getTotalPaid])

/-- Counterexample to C2: HiringSchema.methods.processPayment performs no
duplicate-transaction check.  After a first payment with transaction id T1,
a second call with the same id succeeds, appends a second ledger entry and
raises totalPaid from 100 to 200, where the claim requires the second call
to be rejected with the ledger, totalPaid and paymentStatus unchanged. -/
theorem C2_duplicate_transaction_counterexample :
    Hiring.processPayment
        ⟨HireStatus.pending, PayStatus.pending, 200, 0, [], 0, 0,
          TripType.oneWay, RateType.fixed, 200, 1, 1, 0, 0, [], Policy.standard, false⟩
        100 "Cash" "T1" =
      Except.ok
        ⟨HireStatus.confirmed, PayStatus.partiallyPaid, 200, 0,
          [⟨100, "Cash", "T1", EntryStatus.completed⟩], 0, 0,
          TripType.oneWay, RateType.fixed, 200, 1, 1, 0, 0, [], Policy.standard, false⟩ ∧
    Hiring.processPayment
        ⟨HireStatus.confirmed, PayStatus.partiallyPaid, 200, 0,
          [⟨100, "Cash", "T1", EntryStatus.completed⟩], 0, 0,
          TripType.oneWay, RateType.fixed, 200, 1, 1, 0, 0, [], Policy.standard, false⟩
        100 "Cash" "T1" =
      Except.ok
        ⟨HireStatus.confirmed, PayStatus.paid, 200, 0,
          [⟨100, "Cash", "T1", EntryStatus.completed⟩,
           ⟨100, "Cash", "T1", EntryStatus.completed⟩], 0, 0,
          TripType.oneWay, RateType.fixed, 200, 1, 1, 0, 0, [], Policy.standard, false⟩ ∧
    Hiring.totalPaid
        ⟨HireStatus.confirmed, PayStatus.partiallyPaid, 200, 0,
          [⟨100, "Cash", "T1", EntryStatus.completed⟩], 0, 0,
          TripType.oneWay, RateType.fixed, 200, 1, 1, 0, 0, [], Policy.standard, false⟩ = 100 ∧
    Hiring.totalPaid
        ⟨HireStatus.confirmed, PayStatus.paid, 200, 0,
          [⟨100, "Cash", "T1", EntryStatus.completed⟩,
           ⟨100, "Cash", "T1", EntryStatus.completed⟩], 0, 0,
          TripType.oneWay, RateType.fixed, 200, 1, 1, 0, 0, [], Policy.standard, false⟩ = 200 := by
  refine ⟨?_, ?_, ?_, ?_⟩ <;>
    norm_num [Hiring.processPayment, Hiring.totalPaid]

/-- C2 amended: duplicate transaction ids are rejected for booking ledgers
only.  addPayment on a booking whose ledger already received the id through
a successful call fails with the duplicate error and, being rejected before
any mutation, leaves the ledger, totalPaid and paymentStatus as after the
first call; the hiring method processPayment performs no duplicate check and
appends the repeated transaction id, increasing totalPaid by the amount
(duplicates for hirings are only filtered upstream by the payment
verification controller before this method is reached). -/
theorem C2_duplicate_transaction_amended :
    (∀ (b : Booking) (a1 : ℚ) (t : String) (b1 : Booking) (a2 : ℚ),
      b.addPayment a1 t = Except.ok b1 →
      b1.addPayment a2 t =
        Except.error "Payment with this transaction ID already exists") ∧
    (∀ (h : Hiring) (a : ℚ) (m t : String) (h1 : Hiring),
      0 < a →
      (h.payments.any fun p => p.transactionId = t) = true →
      h.processPayment a m t = Except.ok h1 →
      h1.payments = h.payments ++ [⟨a, m, t, EntryStatus.completed⟩] ∧
      h1.totalPaid = h.totalPaid + a) := by
  constructor
  · intro b a1 t b1 a2 hok
    unfold Booking.addPayment at hok
    split at hok
    · exact absurd hok (by simp)
    · cases hok
      unfold Booking.addPayment
      rw [if_pos]
      simp [Booking.updatePaymentStatus, List.any_append]
  · intro h a m t h1 ha hmem hok
    unfold Hiring.processPayment at hok
    rw [if_neg (not_le.mpr ha)] at hok
    cases hok
    refine ⟨rfl, ?_⟩
    simp [Hiring.totalPaid, List.filter_append]

/-- Witness for C2 amended: a booking that already holds transaction T1
rejects a second T1 payment, and a concrete hiring accepts the duplicate,
growing its ledger and totalPaid. -/
theorem C2_duplicate_transaction_amended_witness :
    Booking.addPayment
        ⟨BookStatus.pending, PayStatus.partiallyPaid, 100,
          [⟨50, "T1", EntryStatus.completed⟩], [], 0⟩ 60 "T1" =
      Except.error "Payment with this transaction ID already exists" ∧
    Hiring.totalPaid
        ⟨HireStatus.confirmed, PayStatus.paid, 200, 0,
          [⟨100, "Cash", "T1", EntryStatus.completed⟩,
           ⟨100, "Cash", "T1", EntryStatus.completed⟩], 0, 0,
          TripType.oneWay, RateType.fixed, 200, 1, 1, 0, 0, [], Policy.standard, false⟩ =
      Hiring.totalPaid
        ⟨HireStatus.confirmed, PayStatus.partiallyPaid, 200, 0,
          [⟨100, "Cash", "T1", EntryStatus.completed⟩], 0, 0,
          TripType.oneWay, RateType.fixed, 200, 1, 1, 0, 0, [], Policy.standard, false⟩ + 100 := by
  have hb : Booking.addPayment ⟨BookStatus.pending, PayStatus.pending, 100, [], [], 0⟩ 50 "T1" =
      Except.ok ⟨BookStatus.pending, PayStatus.partiallyPaid, 100,
        [⟨50, "T1", EntryStatus.completed⟩], [], 0⟩ := by
    norm_num [Booking.addPayment, Booking.updatePaymentStatus,
      Booking.getTotalPaid, Booking.getTotalRefunded]
    decide
  have hh : Hiring.processPayment
      ⟨HireStatus.confirmed, PayStatus.partiallyPaid, 200, 0,
        [⟨100, "Cash", "T1", EntryStatus.completed⟩], 0, 0,
        TripType.oneWay, RateType.fixed, 200, 1, 1, 0, 0, [], Policy.standard, false⟩
      100 "Cash" "T1" =
      Except.ok
        ⟨HireStatus.confirmed, PayStatus.paid, 200, 0,
          [⟨100, "Cash", "T1", EntryStatus.completed⟩,
           ⟨100, "Cash", "T1", EntryStatus.completed⟩], 0, 0,
          TripType.oneWay, RateType.fixed, 200, 1, 1, 0, 0, [], Policy.standard, false⟩ := by
    norm_num [Hiring.processPayment, Hiring.totalPaid]
  exact ⟨C2_duplicate_transaction_amended.1 _ 50 "T1" _ 60 hb,
    (C2_duplicate_transaction_amended.2 _ 100 "Cash" "T1" _ (by norm_num)
      (by simp) hh).2⟩

theorem remainingBalance_eq (h : Hiring) :
    h.remainingBalance = max 0 (h.totalCost - h.totalPaid) := rfl

theorem remainingBalance_mono (h h1 : Hiring) (hc : h1.totalCost = h.totalCost)
    (htp : h1.totalPaid ≤ h.totalPaid) :
    h.remainingBalance ≤ h1.remainingBalance := by
  unfold Hiring.remainingBalance
  rw [hc]
  exact max_le_max le_rfl (by linarith)

theorem hiring_totalPaid_append (h h1 : Hiring) (e : HPayment)
    (hp : h1.payments = h.payments ++ [e]) (he : e.status = EntryStatus.completed) :
    h1.totalPaid = h.totalPaid + e.amount := by
  unfold Hiring.totalPaid
  rw [hp]
  simp [List.filter_append, he]

theorem hiring_refund_effects (h h1 : Hiring) (ra : ℚ) (e : HPayment)
    (hp : h1.payments = h.payments ++ [e]) (he : e.status = EntryStatus.completed)
    (ham : e.amount = -ra) (hc : h1.totalCost = h.totalCost) (hra : 0 < ra) :
    h1.totalPaid = h.totalPaid - ra ∧
    h1.remainingBalance = max 0 (h.totalCost - h.totalPaid + ra) ∧
    h.remainingBalance ≤ h1.remainingBalance := by
  have htp : h1.totalPaid = h.totalPaid - ra := by
    rw [hiring_totalPaid_append h h1 e hp he, ham]
    ring
  refine ⟨htp, ?_, ?_⟩
  · rw [remainingBalance_eq, hc, htp]
    congr 1
    ring
  · exact remainingBalance_mono h h1 hc (by rw [htp]; linarith)

/-- C10: a hiring refund produced by cancellation is appended to the same
payments array as a negative-amount entry with method Refund and status
Completed, so the totalPaid virtual drops by the refund amount and
remainingBalance, max(0, totalCost - totalPaid), rises correspondingly,
while a booking refund goes to the separate refunds list and leaves the
payments array and the booking totalPaid untouched. -/
theorem C10_hiring_refund_negative_entry :
    (∀ (h : Hiring) (now : ℚ) (rid : String) (h1 : Hiring) (res : CancelRefund),
      h.handleCancellation now rid = (h1, res) →
      res.refundAmount > 0 →
      h1.payments = h.payments ++
        [⟨-res.refundAmount, "Refund", rid, EntryStatus.completed⟩] ∧
      h1.totalPaid = h.totalPaid - res.refundAmount ∧
      h1.remainingBalance = max 0 (h.totalCost - h.totalPaid + res.refundAmount) ∧
      h.remainingBalance ≤ h1.remainingBalance) ∧
    (∀ (b : Booking) (a : ℚ) (rid : String),
      (b.addRefund a rid).payments = b.payments ∧
      (b.addRefund a rid).getTotalPaid = b.getTotalPaid) := by
  constructor
  · intro h now rid h1 res heq hpos
    simp only [Hiring.handleCancellation] at heq
    split at heq
    case isTrue hra =>
      injection heq with hA hB
      subst hA
      subst hB
      dsimp only at hpos ⊢
      exact ⟨rfl, hiring_refund_effects _ _ _ _ rfl rfl rfl rfl hpos⟩
    case isFalse hra =>
      injection heq with hA hB
      subst hA
      subst hB
      dsimp only at hpos
      exact absurd hpos hra
  · intro b a rid
    exact ⟨rfl, rfl⟩

/-- Witness for C10: the concrete cancellation refunds 100 as a negative
Refund entry, totalPaid falls from 100 to 0, remainingBalance rises from 0
to 100, and a booking refund leaves the booking payments array alone. -/
theorem C10_hiring_refund_negative_entry_witness :
    Hiring.handleCancellation cancelHiring 0 "R1" = (cancelHiringAfter, ⟨100, 1⟩) ∧
    cancelHiringAfter.payments = cancelHiring.payments ++
      [⟨-(100:ℚ), "Refund", "R1", EntryStatus.completed⟩] ∧
    cancelHiringAfter.totalPaid = cancelHiring.totalPaid - 100 ∧
    cancelHiringAfter.remainingBalance =
      max 0 (cancelHiring.totalCost - cancelHiring.totalPaid + 100) ∧
    cancelHiring.remainingBalance ≤ cancelHiringAfter.remainingBalance ∧
    (Booking.addRefund
      ⟨BookStatus.confirmed, PayStatus.paid, 100,
        [⟨100, "T1", EntryStatus.completed⟩], [], 0⟩ 50 "R2").payments =
      [⟨100, "T1", EntryStatus.completed⟩] := by
  have heq : Hiring.handleCancellation cancelHiring 0 "R1" =
      (cancelHiringAfter, ⟨100, 1⟩) := by
    norm_num [Hiring.handleCancellation, hiringRefundPercentage,
      Hiring.totalPaid, cancelHiring, cancelHiringAfter, round2, jsRound]
  have hmain := C10_hiring_refund_negative_entry.1 cancelHiring 0 "R1"
    cancelHiringAfter ⟨100, 1⟩ heq (by norm_num)
  have hbook := C10_hiring_refund_negative_entry.2
    ⟨BookStatus.confirmed, PayStatus.paid, 100,
      [⟨100, "T1", EntryStatus.completed⟩], [], 0⟩ 50 "R2"
  exact ⟨heq, hmain.1, hmain.2.1, hmain.2.2.1, hmain.2.2.2, hbook.1⟩

/-- C4: for a Route-Based hiring with a resolvable route and bus and no
allowance, overtime rate or extra charges, calculateTotalCost returns
baseRate (falling back to route.baseFare when the hiring baseRate is unset)
times bus.capacity times routePriceMultiplier, doubled last for a round
trip; the start and end dates are universally quantified inside the hiring,
so the duration has no effect on the result. -/
theorem C4_route_based_hiring_cost :
    ∀ (h : Hiring) (r : RouteDoc) (bs : BusDoc),
      h.rateType = RateType.routeBased →
      h.hasRoute = true →
      h.driverAllowance = 0 →
      h.overtimeRate = 0 →
      h.additionalCharges = [] →
      h.calculateTotalCost (some r) (some bs) =
        Except.ok (round2 (jsOr h.baseRate r.baseFare * (bs.capacity : ℚ) *
          jsOr h.routePriceMultiplier 1 *
          (if h.tripType = TripType.roundTrip then 2 else 1))) := by
  intro h r bs hrt hhr hda hor hac
  simp only [Hiring.calculateTotalCost, hrt, hhr, hda, hor, hac, if_true]
  norm_num

/-- Witness for C4: base fare 15000, capacity 25 gives 375000 one way with
multiplier 1, 750000 with multiplier 2, and 750000 for a round trip with
multiplier 1 (the accumulated total doubled last). -/
theorem C4_route_based_hiring_cost_witness :
    Hiring.calculateTotalCost routeBasedHiring (some ⟨15000⟩)
      (some ⟨25, BusStatus.active⟩) = Except.ok 375000 ∧
    Hiring.calculateTotalCost { routeBasedHiring with routePriceMultiplier := 2 }
      (some ⟨15000⟩) (some ⟨25, BusStatus.active⟩) = Except.ok 750000 ∧
    Hiring.calculateTotalCost { routeBasedHiring with tripType := TripType.roundTrip }
      (some ⟨15000⟩) (some ⟨25, BusStatus.active⟩) = Except.ok 750000 := by
  have h1 := C4_route_based_hiring_cost routeBasedHiring ⟨15000⟩
    ⟨25, BusStatus.active⟩ rfl rfl rfl rfl rfl
  have h2 := C4_route_based_hiring_cost { routeBasedHiring with routePriceMultiplier := 2 }
    ⟨15000⟩ ⟨25, BusStatus.active⟩ rfl rfl rfl rfl rfl
  have h3 := C4_route_based_hiring_cost { routeBasedHiring with tripType := TripType.roundTrip }
    ⟨15000⟩ ⟨25, BusStatus.active⟩ rfl rfl rfl rfl rfl
  refine ⟨h1.trans ?_, h2.trans ?_, h3.trans ?_⟩ <;>
    simp [routeBasedHiring, round2, jsRound, jsOr] <;> norm_num

/-- C8: a user cancellation requested under 24 hours before departure fails
with the too-late rejection and no cancelled state is produced, while an
admin request proceeds below 24 hours at the 50 percent tier (for a booking
whose paymentStatus is Paid or Partially Paid, which is the case in which
the controller computes a refund at all). -/
theorem C8_late_cancellation_admin_override :
    ∀ (b : Booking) (now : ℚ),
      (b.departureDate - now) / (1000 * 60 * 60) < 24 →
      b.status ≠ BookStatus.cancelled →
      b.status ≠ BookStatus.completed →
      (cancelBooking b now false =
        CancelOutcome.tooLate ((b.departureDate - now) / (1000 * 60 * 60))) ∧
      ((b.paymentStatus = PayStatus.paid ∨
        b.paymentStatus = PayStatus.partiallyPaid) →
        cancelBooking b now true =
          CancelOutcome.cancelled { b with status := BookStatus.cancelled }
            (round2 (((b.payments.map fun p => p.amount).sum) * (1/2))) (1/2)) := by
  intro b now hlt h1 h2
  constructor
  · simp [cancelBooking, h1, h2, hlt]
  · intro hps
    have h72 : ¬ ((b.departureDate - now) / (1000 * 60 * 60) > 72) := by linarith
    have h48 : ¬ ((b.departureDate - now) / (1000 * 60 * 60) > 48) := by linarith
    have h24 : ¬ ((b.departureDate - now) / (1000 * 60 * 60) > 24) := by linarith
    simp [cancelBooking, h1, h2, hps, h72, h48, h24]

/-- Witness for C8: a booking 10 hours before departure with 100 paid is
rejected for a user and cancelled at 50 percent (refund 50) for an admin. -/
theorem C8_late_cancellation_admin_override_witness :
    cancelBooking lateBooking 0 false =
      CancelOutcome.tooLate ((lateBooking.departureDate - 0) / (1000 * 60 * 60)) ∧
    (lateBooking.departureDate - 0) / (1000 * 60 * 60) = 10 ∧
    cancelBooking lateBooking 0 true =
      CancelOutcome.cancelled { lateBooking with status := BookStatus.cancelled }
        (round2 ((lateBooking.payments.map fun p => p.amount).sum * (1/2))) (1/2) ∧
    round2 ((lateBooking.payments.map fun p => p.amount).sum * (1/2)) = 50 := by
  have h := C8_late_cancellation_admin_override lateBooking 0
    (by norm_num [lateBooking]) (by decide) (by decide)
  exact ⟨h.1, by norm_num [lateBooking],
    h.2 (Or.inl rfl), by norm_num [lateBooking, round2, jsRound]⟩

/-- C9: a booking in a terminal state (Cancelled or Completed) rejects every
status transition to a different status: updateBookingStatus answers with
the corresponding locked error (or the invalid-status rejection for the
Refunded target, which is not an accepted status) and never produces an
updated booking, and cancelBooking likewise rejects both terminal states. -/
theorem C9_terminal_states_locked :
    ∀ (b : Booking) (s : BookStatus) (now : ℚ) (isAdmin : Bool),
      (b.status = BookStatus.cancelled ∨ b.status = BookStatus.completed) →
      s ≠ b.status →
      (∀ after, updateBookingStatus b s ≠ UpdateOutcome.updated after) ∧
      (s ≠ BookStatus.refunded → b.status = BookStatus.cancelled →
        updateBookingStatus b s = UpdateOutcome.cancelledLocked) ∧
      (s ≠ BookStatus.refunded → b.status = BookStatus.completed →
        updateBookingStatus b s = UpdateOutcome.completedLocked) ∧
      (b.status = BookStatus.cancelled →
        cancelBooking b now isAdmin = CancelOutcome.alreadyCancelled) ∧
      (b.status = BookStatus.completed →
        cancelBooking b now isAdmin = CancelOutcome.cannotCancelCompleted) := by
  intro b s now isAdmin hterm hne
  refine ⟨?_, ?_, ?_, ?_, ?_⟩
  · intro after
    unfold updateBookingStatus
    split_ifs with hs hc hcc
    · simp
    · simp
    · simp
    · exfalso
      rcases hterm with h | h
      · rw [h] at hne
        exact hc ⟨h, hne⟩
      · rw [h] at hne
        exact hcc ⟨h, hne⟩
  · intro hsr hcanc
    rw [hcanc] at hne
    unfold updateBookingStatus
    rw [if_neg hsr, if_pos ⟨hcanc, hne⟩]
  · intro hsr hcomp
    rw [hcomp] at hne
    unfold updateBookingStatus
    rw [if_neg hsr, if_neg (by rw [hcomp]; simp), if_pos ⟨hcomp, hne⟩]
  · intro hcanc
    unfold cancelBooking
    rw [if_pos hcanc]
  · intro hcomp
    unfold cancelBooking
    rw [if_neg (by rw [hcomp]; simp), if_pos hcomp]

/-- Witness for C9: a cancelled booking rejects a transition to Confirmed
and a repeated cancellation, and a completed booking rejects both too. -/
theorem C9_terminal_states_locked_witness :
    updateBookingStatus ⟨BookStatus.cancelled, PayStatus.pending, 0, [], [], 0⟩
      BookStatus.confirmed = UpdateOutcome.cancelledLocked ∧
    cancelBooking ⟨BookStatus.cancelled, PayStatus.pending, 0, [], [], 0⟩ 0 false =
      CancelOutcome.alreadyCancelled ∧
    updateBookingStatus ⟨BookStatus.completed, PayStatus.pending, 0, [], [], 0⟩
      BookStatus.confirmed = UpdateOutcome.completedLocked ∧
    cancelBooking ⟨BookStatus.completed, PayStatus.pending, 0, [], [], 0⟩ 0 false =
      CancelOutcome.cannotCancelCompleted := by
  have hA := C9_terminal_states_locked
    ⟨BookStatus.cancelled, PayStatus.pending, 0, [], [], 0⟩
    BookStatus.confirmed 0 false (Or.inl rfl) (by decide)
  have hB := C9_terminal_states_locked
    ⟨BookStatus.completed, PayStatus.pending, 0, [], [], 0⟩
    BookStatus.confirmed 0 false (Or.inr rfl) (by decide)
  exact ⟨hA.2.1 (by decide) rfl, hA.2.2.2.1 rfl,
    hB.2.2.1 (by decide) rfl, hB.2.2.2.2 rfl⟩

theorem bookingConflictPred_iff (s e : ℚ) (bk : AvailBooking) :
    (bookingInWindow s e bk && bookingActive bk.status) = true ↔
      bookingEndpointIn s e bk := by
  unfold bookingInWindow bookingActive bookingEndpointIn
  cases hbr : bk.returnDate <;>
    simp [hbr, Bool.and_eq_true, Bool.or_eq_true, decide_eq_true_eq, and_comm]

theorem hiringConflictPred_iff (s e : ℚ) (hx : AvailHiring) :
    (hiringInWindow s e hx && hiringActive hx.status) = true ↔
      hiringEndpointIn s e hx := by
  unfold hiringInWindow hiringActive hiringEndpointIn
  simp [Bool.and_eq_true, Bool.or_eq_true, decide_eq_true_eq, and_comm]

/-- Counterexample to C5: a requested window [10, 20] strictly inside an
existing Confirmed hiring window [0, 100] intersects it as half-open
intervals (10 < 100 and 0 < 20), yet checkBusAvailability reports the bus
available, because the query only tests whether an endpoint of the existing
hiring falls inside the requested window. -/
theorem C5_window_intersection_counterexample :
    checkBusAvailability 10 20 (some ⟨30, BusStatus.active⟩) []
      [⟨"H1", HireStatus.confirmed, 0, 100⟩] = AvailResult.available 30 ∧
    ((10:ℚ) < 100 ∧ (0:ℚ) < 20) ∧
    hiringActive HireStatus.confirmed = true := by
  refine ⟨?_, by norm_num, by decide⟩
  simp [checkBusAvailability, hiringInWindow, hiringActive, bookingInWindow]
  norm_num

/-- C5 amended: the availability check reports no conflict (bus available)
iff no existing active reservation has an endpoint inside the requested
inclusive window — the hiring query tests whether the existing startDate or
endDate lies in [s, e], the booking query whether the departure (or return)
instant does, not half-open interval intersection, so a requested window
strictly contained in an active hiring window is not reported; likewise the
createBooking hiring check reports a conflict iff the departure (or return)
instant lies inside an active hiring inclusive window. -/
theorem C5_endpoint_containment_amended :
    (∀ (s e : ℚ) (cap : ℕ) (bookings : List AvailBooking)
        (hirings : List AvailHiring),
      checkBusAvailability s e (some ⟨cap, BusStatus.active⟩) bookings hirings =
        AvailResult.available cap ↔
      (∀ bk ∈ bookings, ¬ bookingEndpointIn s e bk) ∧
      (∀ hx ∈ hirings, ¬ hiringEndpointIn s e hx)) ∧
    (∀ (dep : ℚ) (ret : Option ℚ) (hirings : List AvailHiring),
      createBookingHiringConflicts dep ret hirings = [] ↔
      ∀ hx ∈ hirings, ¬((hx.status = HireStatus.confirmed ∨
          hx.status = HireStatus.pending ∨ hx.status = HireStatus.inProgress) ∧
        ((hx.startDate ≤ dep ∧ dep ≤ hx.endDate) ∨
          ∃ r', ret = some r' ∧ hx.startDate ≤ r' ∧ r' ≤ hx.endDate))) := by
  constructor
  · intro s e cap bookings hirings
    simp only [checkBusAvailability]
    norm_num
    split_ifs with hc1 hc2
    · constructor
      · intro habs
        exact absurd habs (by simp)
      · rintro ⟨hb, _⟩
        obtain ⟨bk, hmem, hw, ha⟩ := hc1
        refine absurd ((bookingConflictPred_iff s e bk).mp ?_) (hb bk hmem)
        rw [Bool.and_eq_true]
        exact ⟨hw, ha⟩
    · constructor
      · intro habs
        exact absurd habs (by simp)
      · rintro ⟨_, hh⟩
        obtain ⟨hx, hmem, hw, ha⟩ := hc2
        refine absurd ((hiringConflictPred_iff s e hx).mp ?_) (hh hx hmem)
        rw [Bool.and_eq_true]
        exact ⟨hw, ha⟩
    · constructor
      · intro _
        refine ⟨fun bk hmem hpred => ?_, fun hx hmem hpred => ?_⟩
        · have hb := (bookingConflictPred_iff s e bk).mpr hpred
          rw [Bool.and_eq_true] at hb
          exact hc1 ⟨bk, hmem, hb.1, hb.2⟩
        · have hb := (hiringConflictPred_iff s e hx).mpr hpred
          rw [Bool.and_eq_true] at hb
          exact hc2 ⟨hx, hmem, hb.1, hb.2⟩
      · intro _
        rfl
  · intro dep ret hirings
    unfold createBookingHiringConflicts
    rw [List.map_eq_nil_iff, List.filter_eq_nil_iff]
    refine forall₂_congr fun hx hmem => ?_
    cases hret : ret <;>
      simp [hret, hiringActive, Bool.and_eq_true, Bool.or_eq_true,
        decide_eq_true_eq, and_comm]

/-- Witness for C5 amended: a Cancelled hiring whose start lies inside the
window is no conflict, and a booking at instant 5 does not conflict with an
active hiring over [20, 30]. -/
theorem C5_endpoint_containment_amended_witness :
    checkBusAvailability 0 50 (some ⟨30, BusStatus.active⟩) []
      [⟨"H1", HireStatus.cancelled, 10, 60⟩] = AvailResult.available 30 ∧
    createBookingHiringConflicts 5 none [⟨"H2", HireStatus.confirmed, 20, 30⟩] = [] := by
  constructor
  · refine (C5_endpoint_containment_amended.1 0 50 30 [] _).mpr ⟨by simp, ?_⟩
    intro hx hmem
    simp only [List.mem_singleton] at hmem
    subst hmem
    simp [hiringEndpointIn]
  · refine (C5_endpoint_containment_amended.2 5 none _).mpr ?_
    intro hx hmem
    simp only [List.mem_singleton] at hmem
    subst hmem
    simp
    norm_num

/-- Counterexample to C6: the requested Round-Trip return seat A1 at
instant 200 is occupied at that instant by the Confirmed booking BKG-1,
which departs at 200 with passenger seat A1, yet creation succeeds: the
return-seat check only inspects bookings whose returnDate equals the
requested return date, so a booking departing at that instant is never
consulted. -/
theorem C6_seat_occupancy_counterexample :
    createBooking 25 [⟨"BKG-1", BookStatus.confirmed, 200, none, ["A1"], []⟩]
      ⟨100, some 200, TripType.roundTrip, ["A2"], ["A1"], ["A2"]⟩ =
      CreateOutcome.ok ∧
    (⟨"BKG-1", BookStatus.confirmed, 200, none, ["A1"], []⟩ : ExBooking).status =
      BookStatus.confirmed ∧
    (⟨"BKG-1", BookStatus.confirmed, 200, none, ["A1"], []⟩ : ExBooking).departureDate =
      (200 : ℚ) ∧
    "A1" ∈ (⟨"BKG-1", BookStatus.confirmed, 200, none, ["A1"], []⟩ : ExBooking).passengerSeats ∧
    (⟨100, some 200, TripType.roundTrip, ["A2"], ["A1"], ["A2"]⟩ : BookingRequest).returnDate =
      some (200 : ℚ) ∧
    "A1" ∈ (⟨100, some 200, TripType.roundTrip, ["A2"], ["A1"], ["A2"]⟩ : BookingRequest).returnSeats := by
  refine ⟨?_, rfl, rfl, by decide, rfl, by decide⟩
  decide

set_option maxHeartbeats 1000000 in
/-- C6 amended: creation is rejected when a requested outbound seat appears
among the passenger seats of another Pending/Confirmed booking matching the
date query at the requested departure, when booked plus requested seats
exceed capacity, or when the request repeats a seat; the Round-Trip return
check only rejects when a requested return seat appears among the passenger
(outbound) seat numbers of a booking whose returnDate equals the requested
return date (and only when outbound seats were selected), so no two
Pending/Confirmed bookings on the same bus and departure share an outbound
passenger seat, and an outbound seat-conflict rejection lists conflicting
seats and booking references. -/
theorem C6_seat_checks_amended :
    ∀ (capacity : ℕ) (existing : List ExBooking) (req : BookingRequest),
      ((∃ b ∈ existing,
          (b.status = BookStatus.confirmed ∨ b.status = BookStatus.pending) ∧
          b.departureDate = req.departureDate ∧
          ∃ s ∈ req.outboundSeats, s ∈ b.passengerSeats) →
        createBooking capacity existing req ≠ CreateOutcome.ok) ∧
      ((bookedOutbound existing req).length + req.passengerSeats.length > capacity →
        createBooking capacity existing req ≠ CreateOutcome.ok) ∧
      ((req.outboundSeats.dedup.length ≠ req.outboundSeats.length ∨
        req.passengerSeats.dedup.length ≠ req.passengerSeats.length) →
        createBooking capacity existing req ≠ CreateOutcome.ok) ∧
      (req.bookingType = TripType.roundTrip → req.outboundSeats ≠ [] →
        (∃ b ∈ existing,
          (b.status = BookStatus.confirmed ∨ b.status = BookStatus.pending) ∧
          returnQueryMatches req b = true ∧
          ∃ s ∈ req.returnSeats, s ∈ b.passengerSeats) →
        createBooking capacity existing req ≠ CreateOutcome.ok) ∧
      (createBooking capacity existing req = CreateOutcome.ok →
        ∀ b ∈ existing,
          (b.status = BookStatus.confirmed ∨ b.status = BookStatus.pending) →
          b.departureDate = req.departureDate →
          ∀ s ∈ req.outboundSeats, s ∉ b.passengerSeats) ∧
      (∀ seats refs,
        createBooking capacity existing req = CreateOutcome.seatConflict seats refs →
        ∀ s ∈ seats, s ∈ req.outboundSeats ∧
          ∃ b ∈ existing, bookingActive b.status = true ∧
            matchesDateQuery req b = true ∧ s ∈ b.passengerSeats ∧
            b.bookingNumber ∈ refs) := by
  intro capacity existing req
  have hconf : ∀ b ∈ existing,
      (b.status = BookStatus.confirmed ∨ b.status = BookStatus.pending) →
      b.departureDate = req.departureDate →
      ∀ s ∈ req.outboundSeats, s ∈ b.passengerSeats →
      b ∈ outboundConflicts existing req := by
    intro b hbmem hbst hbdep s hsreq hsb
    rw [outboundConflicts, List.mem_filter]
    refine ⟨hbmem, ?_⟩
    simp only [Bool.and_eq_true, List.any_eq_true]
    refine ⟨⟨?_, ?_⟩, s, hsb, ?_⟩
    · simp [bookingActive, hbst.symm]
      tauto
    · simp [matchesDateQuery, hbdep]
    · simp [hsreq]
  have hA : (∃ b ∈ existing,
      (b.status = BookStatus.confirmed ∨ b.status = BookStatus.pending) ∧
      b.departureDate = req.departureDate ∧
      ∃ s ∈ req.outboundSeats, s ∈ b.passengerSeats) →
      createBooking capacity existing req ≠ CreateOutcome.ok := by
    rintro ⟨b, hbmem, hbst, hbdep, s, hsreq, hsb⟩ hok
    have hbc := hconf b hbmem hbst hbdep s hsreq hsb
    unfold createBooking at hok
    split_ifs at hok with h1 h2 h3 h4 h5 h6 h7 h8
    all_goals try exact h6 (List.ne_nil_of_mem hbc)
    all_goals try exact h5 (by
      have := List.length_pos_of_mem hsreq
      omega)
  refine ⟨hA, ?_, ?_, ?_, ?_, ?_⟩
  · intro hcap hok
    unfold createBooking at hok
    rw [if_pos hcap] at hok
    exact absurd hok (by simp)
  · intro hdup hok
    unfold createBooking at hok
    split_ifs at hok
  · rintro hrt hone ⟨b, hbmem, hbst, hbret, s, hsreq, hsb⟩ hok
    have hbc : b ∈ returnSeatConflicts existing req := by
      rw [returnSeatConflicts, List.mem_filter]
      refine ⟨hbmem, ?_⟩
      simp only [Bool.and_eq_true, List.any_eq_true]
      refine ⟨⟨?_, hbret⟩, s, hsb, ?_⟩
      · simp only [bookingActive, decide_eq_true_eq]
        exact hbst
      · simpa using hsreq
    unfold createBooking at hok
    split_ifs at hok with h1 h2 h3 h4 h5 h6 h7 h8
    all_goals try exact h8 (List.ne_nil_of_mem hbc)
    all_goals try exact h7 ⟨hrt, by
      have := List.length_pos_of_mem hsreq
      omega⟩
    all_goals try exact h5 (by
      have := List.length_pos.mpr hone
      omega)
  · intro hok b hbmem hbst hbdep s hsreq hsb
    exact hA ⟨b, hbmem, hbst, hbdep, s, hsreq, hsb⟩ hok
  · intro seats refs hres s hs
    unfold createBooking at hres
    split_ifs at hres with h1 h2 h3 h4 h5 h6 h7 h8
    injection hres with hseats hrefs
    subst hseats
    subst hrefs
    rw [List.mem_dedup, List.mem_filter] at hs
    obtain ⟨hsf, hcont⟩ := hs
    rw [List.mem_flatMap] at hsf
    obtain ⟨b, hbc, hsb⟩ := hsf
    have hbmem := hbc
    rw [outboundConflicts, List.mem_filter] at hbmem
    simp only [Bool.and_eq_true] at hbmem
    refine ⟨by simpa using hcont, b, hbmem.1, hbmem.2.1.1, hbmem.2.1.2, hsb, ?_⟩
    exact List.mem_map_of_mem _ hbc

/-- Witness for C6 amended: a second booking asking for the already-held
outbound seat A1 on the same bus and departure instant is rejected, with the
conflicting seat and booking reference reported. -/
theorem C6_seat_checks_amended_witness :
    createBooking 25 [⟨"B1", BookStatus.confirmed, 100, none, ["A1"], []⟩]
      ⟨100, none, TripType.oneWay, ["A1"], [], ["A1"]⟩ ≠ CreateOutcome.ok ∧
    createBooking 25 [⟨"B1", BookStatus.confirmed, 100, none, ["A1"], []⟩]
      ⟨100, none, TripType.oneWay, ["A1"], [], ["A1"]⟩ =
      CreateOutcome.seatConflict ["A1"] ["B1"] := by
  refine ⟨(C6_seat_checks_amended 25 _ _).1
    ⟨⟨"B1", BookStatus.confirmed, 100, none, ["A1"], []⟩,
      by decide, by decide, by decide, "A1", by decide, by decide⟩, by decide⟩

theorem round2_of_cents (k : ℤ) : round2 ((k : ℚ) / 100) = (k : ℚ) / 100 := by
  unfold round2 jsRound
  have h1 : (k : ℚ) / 100 * 100 = (k : ℚ) := by field_simp
  rw [h1, Int.floor_int_add]
  norm_num

/-- Counterexample to C7: with a single passenger fare of 10.005 (a legal
store amount, since nothing constrains fares to whole cents) and no promo,
the round-trip total is 20.01 while twice the one-way total is 2 times
10.01 = 20.02, because the single rounding to 2 decimals happens after the
doubling; the controller fare path behaves identically with
routeData.baseFare = 10.005. -/
theorem C7_round_trip_exactness_counterexample :
    Booking.calculateTotalFare [2001/200] TripType.roundTrip 0 ≠
      2 * Booking.calculateTotalFare [2001/200] TripType.oneWay 0 ∧
    Booking.calculateTotalFare [2001/200] TripType.roundTrip 0 = 2001/100 ∧
    Booking.calculateTotalFare [2001/200] TripType.oneWay 0 = 1001/100 ∧
    createBookingFare (2001/200) 1 TripType.roundTrip none ≠
      2 * createBookingFare (2001/200) 1 TripType.oneWay none := by
  refine ⟨?_, ?_, ?_, ?_⟩ <;>
    simp [Booking.calculateTotalFare, createBookingFare] <;>
    norm_num [round2, jsRound]

/-- C7 amended: both fare computations double the un-rounded one-way total
after all per-passenger modifiers (the per-passenger fares do not depend on
the booking type), apply the promo fraction after the doubling, and round
to 2 decimals once at the very end; consequently fare(Round-Trip) equals
exactly 2 times fare(One-Way) with no promo whenever the un-rounded one-way
total is a whole number of cents, while a fractional-cent one-way total can
make the two final roundings differ by 0.01. -/
theorem C7_round_trip_doubling_amended :
    (∀ (fares : List ℚ) (k : ℤ),
      fares.sum = (k : ℚ) / 100 →
      Booking.calculateTotalFare fares TripType.roundTrip 0 =
        2 * Booking.calculateTotalFare fares TripType.oneWay 0) ∧
    (∀ (baseFare : ℚ) (n : ℕ) (k : ℤ),
      baseFare * (n : ℚ) = (k : ℚ) / 100 →
      createBookingFare baseFare n TripType.roundTrip none =
        2 * createBookingFare baseFare n TripType.oneWay none) ∧
    (∀ (fares : List ℚ) (d : ℚ), d ≠ 0 →
      Booking.calculateTotalFare fares TripType.roundTrip d =
        round2 (fares.sum * 2 * (1 - d)) ∧
      Booking.calculateTotalFare fares TripType.oneWay d =
        round2 (fares.sum * (1 - d))) := by
  have hne : TripType.oneWay ≠ TripType.roundTrip := by decide
  refine ⟨?_, ?_, ?_⟩
  · intro fares k hsum
    simp only [Booking.calculateTotalFare, hsum, if_neg hne]
    norm_num
    have h2 : (k : ℚ) / 100 * 2 = ((2 * k : ℤ) : ℚ) / 100 := by
      push_cast
      ring
    rw [h2, round2_of_cents, round2_of_cents]
    push_cast
    ring
  · intro baseFare n k hsum
    simp only [createBookingFare, hsum, if_neg hne]
    norm_num
    have h2 : (k : ℚ) / 100 * 2 = ((2 * k : ℤ) : ℚ) / 100 := by
      push_cast
      ring
    rw [h2, round2_of_cents, round2_of_cents]
    push_cast
    ring
  · intro fares d hd
    constructor
    · simp only [Booking.calculateTotalFare, if_pos hd]
      norm_num
    · simp only [Booking.calculateTotalFare, if_neg hne, if_pos hd]

/-- Witness for C7 amended: a 10.00 fare doubles exactly (20.00), the
controller fare for base 5000 and 2 passengers doubles exactly (20000), and
a 10 percent promo on a 10.00 round trip yields round2(18) = 18. -/
theorem C7_round_trip_doubling_amended_witness :
    Booking.calculateTotalFare [10] TripType.roundTrip 0 =
      2 * Booking.calculateTotalFare [10] TripType.oneWay 0 ∧
    createBookingFare 5000 2 TripType.roundTrip none =
      2 * createBookingFare 5000 2 TripType.oneWay none ∧
    Booking.calculateTotalFare [10] TripType.roundTrip (1/10) =
      round2 ((10 : ℚ) * 2 * (1 - 1/10)) ∧
    Booking.calculateTotalFare [10] TripType.roundTrip (1/10) = 18 := by
  refine ⟨C7_round_trip_doubling_amended.1 [10] 1000 (by norm_num),
    C7_round_trip_doubling_amended.2.1 5000 2 1000000 (by norm_num), ?_, ?_⟩
  · have h := (C7_round_trip_doubling_amended.2.2 [10] (1/10) (by norm_num)).1
    simpa using h
  · norm_num [Booking.calculateTotalFare, round2, jsRound]

end IbomTransit
